import Mathlib

/-!
Verification development for the Portainer MCP bridge (src/server.js).

The server is a stateless adapter: each inbound tool call is dispatched by
name, optionally gated by a confirmation check, translated into one or two
HTTP calls against the Portainer API, and rendered as text.  The embedding
below translates the JavaScript source into Lean: handlers are functions
from a remote-API oracle and arguments to a result together with the list
of remote calls issued (in order).  JavaScript-specific behaviour
(truthiness, first-occurrence string replace, object-key overwrite,
TypeError on property access of undefined) is modelled explicitly.
-/

namespace PortainerBridge

/-! JavaScript string primitives used by the source. -/

/-- ASCII lowering, modelling String.prototype.toLowerCase on the ASCII
range used by the action names (Char.toLower lowers only A-Z). -/
def jsToLower (s : String) : String := ⟨s.data.map Char.toLower⟩

/-- Tests whether the list s starts with the list p. -/
def startsWithL : List Char → List Char → Bool
  | _, [] => true
  | [], _ :: _ => false
  | c :: s, d :: p => decide (c = d) && startsWithL s p

/-- Substring containment on character lists, modelling
String.prototype.includes. -/
def listContainsSub (s p : List Char) : Bool :=
  match s with
  | [] => startsWithL [] p
  | c :: t => startsWithL (c :: t) p || listContainsSub t p

/-- String.prototype.includes. -/
def strIncludes (s p : String) : Bool := listContainsSub s.data p.data

/-- First-occurrence replacement on lists, modelling
String.prototype.replace with a nonempty string pattern (the single use in
the source has pattern "/"). -/
def jsReplaceFirstL (s pat repl : List Char) : List Char :=
  match s with
  | [] => []
  | c :: t =>
    if startsWithL (c :: t) pat then repl ++ (c :: t).drop pat.length
    else c :: jsReplaceFirstL t pat repl

/-- String.prototype.replace with a string pattern (first occurrence only). -/
def jsReplaceFirst (s pat repl : String) : String :=
  ⟨jsReplaceFirstL s.data pat.data repl.data⟩

/-- JavaScript String.prototype.substring with both indices, start ≤ stop. -/
def jsSubstring (s : String) (start stop : Nat) : String :=
  ⟨(s.data.drop start).take (stop - start)⟩

/-- Template-literal interpolation of a possibly-undefined string value. -/
def optStr (v : Option String) : String := v.getD "undefined"

/-- JavaScript s || d for strings: the empty string is falsy. -/
def jsOrStr (s d : String) : String := if s = "" then d else s

/-- JavaScript v || d for a possibly-undefined string value. -/
def jsOrOptStr (v : Option String) (d : String) : String :=
  match v with
  | some s => jsOrStr s d
  | none => d

/-- Truthiness of a possibly-undefined string (undefined and "" are falsy). -/
def jsFalsyStr (v : Option String) : Bool :=
  match v with
  | none => true
  | some s => decide (s = "")

/-- Truthiness of a possibly-undefined boolean flag (!args.confirm is true
exactly when this is false). -/
def confirmGiven (v : Option Bool) : Bool := v.getD false

/-- Truthiness of a possibly-undefined number (undefined and 0 are falsy). -/
def jsTruthyOptNat (v : Option Nat) : Bool :=
  match v with
  | some n => decide (n ≠ 0)
  | none => false

/-! The safety gate (src/server.js lines 28-31). -/

def dangerous : List String := ["remove", "delete", "stop", "restart", "kill", "prune"]

def requiresConfirmation (action : String) : Bool :=
  dangerous.any (fun word => strIncludes (jsToLower action) word)

/-! JavaScript plain-object maps.  Assigning obj[k] = v overwrites the value
of an existing key (keeping its position) and otherwise appends the key. -/

def keyMem (ks : List String) (k : String) : Bool := ks.any (fun x => decide (x = k))

def objSetKey (ks : List String) (k : String) : List String :=
  if keyMem ks k then ks else ks ++ [k]

def objHasKey (m : List (String × List String)) (k : String) : Bool :=
  m.any (fun q => decide (q.1 = k))

def objSet (m : List (String × List String)) (k : String) (v : List String) :
    List (String × List String) :=
  if objHasKey m k then m.map (fun q => if q.1 = k then (k, v) else q)
  else m ++ [(k, v)]

def objLookup (m : List (String × List String)) (k : String) : Option (List String) :=
  match m with
  | [] => none
  | q :: t => if q.1 = k then some q.2 else objLookup t k

/-! Data shapes crossing the tool-protocol boundary. -/

structure TextContent where
  type_ : String
  text : String
  deriving DecidableEq, Repr

structure ToolResult where
  content : List TextContent
  deriving DecidableEq, Repr

def textResult (t : String) : ToolResult :=
  { content := [{ type_ := "text", text := t }] }

inductive ErrCode
  | internalError
  | methodNotFound
  deriving DecidableEq, Repr

/-- Failures observable from a handler: a thrown McpError, an axios error
carrying an HTTP response (status and the JSON.stringify rendering of the
response data), an axios transport error without a response, or a
JavaScript TypeError from accessing a property of undefined. -/
inductive HandlerError
  | mcp (code : ErrCode) (message : String)
  | axiosHttp (status : Nat) (dataJson : String)
  | axiosNet (message : String)
  | jsType (message : String)
  deriving DecidableEq, Repr

/-! Remote request shapes. -/

structure PortMapping where
  host : Nat
  container : Nat
  deriving DecidableEq, Repr

structure VolumeMapping where
  host : String
  container : String
  deriving DecidableEq, Repr

structure StackEnvVar where
  name : String
  value : String
  deriving DecidableEq, Repr

/-- The container-creation payload built by createContainer.  ExposedPorts
is a JS object whose values are all the empty object, so only its key list
is modelled; PortBindings maps a port key to the list of HostPort strings. -/
structure ContainerConfig where
  Image : Option String
  name : Option String
  Env : List String
  restartPolicyName : String
  PortBindings : List (String × List String)
  Binds : List String
  ExposedPorts : List String
  deriving DecidableEq, Repr

structure StackData where
  Name : Option String
  StackFileContent : Option String
  Env : List StackEnvVar
  deriving DecidableEq, Repr

inductive ReqBody
  | containerCreate (config : ContainerConfig)
  | stackCreate (data : StackData)
  deriving DecidableEq, Repr

structure ApiCall where
  method : String
  path : String
  params : List (String × String)
  body : Option ReqBody
  deriving DecidableEq, Repr

/-! Remote response shapes (fields the source reads; optional where a
claim depends on the field being absent). -/

structure RemotePort where
  PublicPort : Option Nat
  PrivatePort : Nat
  deriving DecidableEq, Repr

structure RemoteContainer where
  Id : String
  Names : List String
  Image : String
  Status : String
  State : String
  Ports : Option (List RemotePort)
  deriving DecidableEq, Repr

structure RemoteMount where
  Source : String
  Destination : String
  deriving DecidableEq, Repr

/-- Single-container inspection payload; nested paths of the source
(c.State.Status, c.Config.Image, c.HostConfig.RestartPolicy.Name,
Object.keys(c.NetworkSettings.Networks)) are flattened into fields. -/
structure RemoteContainerDetail where
  Id : String
  Name : String
  stateStatus : String
  stateStartedAt : String
  configImage : String
  configEnv : Option (List String)
  restartPolicyName : String
  Mounts : Option (List RemoteMount)
  networkNames : List String
  deriving DecidableEq, Repr

structure RemoteImage where
  Id : String
  RepoTags : Option (List String)
  Size : Nat
  Created : Nat
  deriving DecidableEq, Repr

structure RemoteVolume where
  Name : String
  Driver : String
  Mountpoint : String
  deriving DecidableEq, Repr

structure RemoteNetwork where
  Id : String
  Name : String
  Driver : String
  Scope : String
  deriving DecidableEq, Repr

structure RemoteSystemInfo where
  ServerVersion : String
  OperatingSystem : String
  Architecture : String
  MemTotal : Nat
  NCPU : Nat
  Containers : Nat
  ContainersRunning : Nat
  Images : Nat
  Driver : String
  DockerRootDir : String
  deriving DecidableEq, Repr

/-- Successful response data, one constructor per endpoint shape. -/
inductive RemoteData
  | containers (cs : List RemoteContainer)
  | containerDetail (c : RemoteContainerDetail)
  | logs (text : String)
  | empty
  | created (Id : String)
  | images (imgs : List RemoteImage)
  | volumes (vs : Option (List RemoteVolume))
  | networks (ns : List RemoteNetwork)
  | sysInfo (i : RemoteSystemInfo)
  | stack (Id : String)
  deriving DecidableEq, Repr

/-- Outcome of one remote HTTP call as axios exposes it: success data, an
error carrying a response (status and stringified data), or a transport
error without a response. -/
inductive ApiOutcome
  | ok (data : RemoteData)
  | httpErr (status : Nat) (dataJson : String)
  | netErr (message : String)
  deriving DecidableEq, Repr

def callApi (oracle : ApiCall → ApiOutcome) (c : ApiCall) : Except HandlerError RemoteData :=
  match oracle c with
  | .ok d => .ok d
  | .httpErr s b => .error (.axiosHttp s b)
  | .netErr m => .error (.axiosNet m)

/-- A handler outcome: the result (or error) together with the remote calls
issued, in order. -/
abbrev HandlerOut := Except HandlerError ToolResult × List ApiCall

/-! Configuration.  PORTAINER_ENDPOINT_ID defaults to 1 and is only ever
interpolated into URL paths. -/

def endpointId : String := "1"

def containersPath : String :=
  "/api/endpoints/" ++ endpointId ++ "/docker/containers/json"

def containerInfoPath (id : String) : String :=
  "/api/endpoints/" ++ endpointId ++ "/docker/containers/" ++ id ++ "/json"

def containerLogsPath (id : String) : String :=
  "/api/endpoints/" ++ endpointId ++ "/docker/containers/" ++ id ++ "/logs"

def containerActionPath (id action : String) : String :=
  "/api/endpoints/" ++ endpointId ++ "/docker/containers/" ++ id ++ "/" ++ action

def createPath : String :=
  "/api/endpoints/" ++ endpointId ++ "/docker/containers/create"

def startPath (id : String) : String :=
  "/api/endpoints/" ++ endpointId ++ "/docker/containers/" ++ id ++ "/start"

def imagesPath : String := "/api/endpoints/" ++ endpointId ++ "/docker/images/json"

def volumesPath : String := "/api/endpoints/" ++ endpointId ++ "/docker/volumes"

def networksPath : String := "/api/endpoints/" ++ endpointId ++ "/docker/networks"

def infoPath : String := "/api/endpoints/" ++ endpointId ++ "/docker/info"

def stacksPath : String :=
  "/api/stacks?endpointId=" ++ endpointId ++ "&method=string&type=2"

def boolStr (b : Bool) : String := if b then "true" else "false"

/-! Handler: listContainers. -/

structure ContainerView where
  id : String
  name : String
  image : String
  status : String
  state : String
  ports : String
  deriving DecidableEq, Repr

/-- Port display: p.PublicPort ? pub:priv : priv (0 is falsy in JS). -/
def portDisplay (p : RemotePort) : String :=
  if jsTruthyOptNat p.PublicPort then
    toString (p.PublicPort.getD 0) ++ ":" ++ toString p.PrivatePort
  else toString p.PrivatePort

/-- The projection applied to each remote container.  Accessing Names[0]
of an empty array or mapping over an absent Ports field raises a
TypeError, as in JavaScript. -/
def containerView (c : RemoteContainer) : Except HandlerError ContainerView := do
  let name0 ← match c.Names.head? with
    | none =>
      Except.error (HandlerError.jsType
        "TypeError: Cannot read properties of undefined (reading \x27replace\x27)")
    | some n => Except.ok n
  let ports ← match c.Ports with
    | none =>
      Except.error (HandlerError.jsType
        "TypeError: Cannot read properties of undefined (reading \x27map\x27)")
    | some ps => Except.ok ps
  Except.ok
    { id := jsSubstring c.Id 0 12
      name := jsReplaceFirst name0 "/" ""
      image := c.Image
      status := c.Status
      state := c.State
      ports := String.intercalate ", " (ports.map portDisplay) }

def containerLine (v : ContainerView) : String :=
  "📦 " ++ v.name ++ " (" ++ v.id ++ ")\n   Image: " ++ v.image ++
    "\n   Status: " ++ v.status ++ "\n   Ports: " ++ jsOrStr v.ports "none" ++ "\n"

def containersCallOf (all : Option Bool) : ApiCall :=
  { method := "GET"
    path := containersPath
    params := [("all", boolStr (all.getD true))]
    body := none }

/-- The response.data.map traversal: elements are projected left to right
and the first TypeError aborts the whole map, as in JavaScript. -/
def mapViews : List RemoteContainer → Except HandlerError (List ContainerView)
  | [] => .ok []
  | c :: cs => do
    let v ← containerView c
    let vs ← mapViews cs
    .ok (v :: vs)

def listContainers (oracle : ApiCall → ApiOutcome) (all : Option Bool) : HandlerOut :=
  let call := containersCallOf all
  match callApi oracle call with
  | .error e => (.error e, [call])
  | .ok (.containers cs) =>
    match mapViews cs with
    | .error e => (.error e, [call])
    | .ok views =>
      (.ok (textResult ("Found " ++ toString views.length ++ " containers:\n\n" ++
        String.intercalate "\n" (views.map containerLine))), [call])
  | .ok _ => (.error (.jsType "TypeError: response shape mismatch"), [call])

/-! Handler: getContainerInfo. -/

def mountLine (m : RemoteMount) : String := "  - " ++ m.Source ++ " -> " ++ m.Destination

def containerInfoCallOf (id : String) : ApiCall :=
  { method := "GET", path := containerInfoPath id, params := [], body := none }

def getContainerInfo (oracle : ApiCall → ApiOutcome) (containerId : String) : HandlerOut :=
  let call := containerInfoCallOf containerId
  match callApi oracle call with
  | .error e => (.error e, [call])
  | .ok (.containerDetail c) =>
    match c.configEnv with
    | none =>
      (.error (.jsType
        "TypeError: Cannot read properties of undefined (reading \x27map\x27)"), [call])
    | some env =>
      match c.Mounts with
      | none =>
        (.error (.jsType
          "TypeError: Cannot read properties of undefined (reading \x27map\x27)"), [call])
      | some mounts =>
        (.ok (textResult
          ("Container: " ++ jsReplaceFirst c.Name "/" "" ++ " (" ++
            jsSubstring c.Id 0 12 ++ ")\n" ++
            "State: " ++ c.stateStatus ++ "\n" ++
            "Started: " ++ c.stateStartedAt ++ "\n" ++
            "Image: " ++ c.configImage ++ "\n" ++
            "Restart Policy: " ++ c.restartPolicyName ++ "\n" ++
            "Environment:\n" ++
            String.intercalate "\n" (env.map (fun e => "  - " ++ e)) ++ "\n" ++
            "Mounts:\n" ++
            jsOrStr (String.intercalate "\n" (mounts.map mountLine)) "  none" ++ "\n" ++
            "Networks: " ++ String.intercalate ", " c.networkNames)), [call])
  | .ok _ => (.error (.jsType "TypeError: response shape mismatch"), [call])

/-! Handler: getContainerLogs. -/

def containerLogsCallOf (id : String) (tail : Nat) : ApiCall :=
  { method := "GET"
    path := containerLogsPath id
    params := [("stdout", "true"), ("stderr", "true"), ("tail", toString tail)]
    body := none }

def getContainerLogs (oracle : ApiCall → ApiOutcome) (containerId : String)
    (tail : Option Nat) : HandlerOut :=
  let t := tail.getD 100
  let call := containerLogsCallOf containerId t
  match callApi oracle call with
  | .error e => (.error e, [call])
  | .ok (.logs text) =>
    (.ok (textResult ("Logs for container " ++ containerId ++ " (last " ++
      toString t ++ " lines):\n\n" ++ text)), [call])
  | .ok _ => (.error (.jsType "TypeError: response shape mismatch"), [call])

/-! Handler: containerAction.  The response body is unused, so any
successful outcome yields the fixed-form message. -/

def containerActionCallOf (id action : String) : ApiCall :=
  { method := "POST", path := containerActionPath id action, params := [], body := none }

def containerAction (oracle : ApiCall → ApiOutcome) (containerId action : String) :
    HandlerOut :=
  let call := containerActionCallOf containerId action
  match callApi oracle call with
  | .error e => (.error e, [call])
  | .ok _ =>
    (.ok (textResult ("✅ Successfully performed \x27" ++ action ++
      "\x27 on container " ++ containerId)), [call])

/-! Handler: createContainer. -/

structure Args where
  all : Option Bool := none
  container_id : Option String := none
  action : Option String := none
  tail : Option Nat := none
  confirm : Option Bool := none
  name : Option String := none
  image : Option String := none
  env : Option (List String) := none
  ports : Option (List PortMapping) := none
  volumes : Option (List VolumeMapping) := none
  restart_policy : Option String := none
  compose_content : Option String := none
  stackEnv : Option (List StackEnvVar) := none
  deriving DecidableEq, Repr

def portKey (p : PortMapping) : String := toString p.container ++ "/tcp"

def portStep (acc : List String × List (String × List String)) (p : PortMapping) :
    List String × List (String × List String) :=
  (objSetKey acc.1 (portKey p), objSet acc.2 (portKey p) [toString p.host])

/-- The forEach loop over args.ports, building ExposedPorts and
PortBindings as JS objects (later assignments to the same key overwrite). -/
def buildPortMaps (ports : List PortMapping) :
    List String × List (String × List String) :=
  ports.foldl portStep ([], [])

def buildCreateConfig (args : Args) : ContainerConfig :=
  { Image := args.image
    name := args.name
    Env := args.env.getD []
    restartPolicyName := jsOrOptStr args.restart_policy "unless-stopped"
    PortBindings := (buildPortMaps (args.ports.getD [])).2
    Binds := (args.volumes.getD []).map (fun v => v.host ++ ":" ++ v.container)
    ExposedPorts := (buildPortMaps (args.ports.getD [])).1 }

def createCallOf (args : Args) : ApiCall :=
  { method := "POST"
    path := createPath
    params := match args.name with
      | some n => [("name", n)]
      | none => []
    body := some (.containerCreate (buildCreateConfig args)) }

def startCallOf (id : String) : ApiCall :=
  { method := "POST", path := startPath id, params := [], body := none }

def createContainer (oracle : ApiCall → ApiOutcome) (args : Args) : HandlerOut :=
  let createCall := createCallOf args
  match callApi oracle createCall with
  | .error e => (.error e, [createCall])
  | .ok (.created cid) =>
    let startCall := startCallOf cid
    match callApi oracle startCall with
    | .error e => (.error e, [createCall, startCall])
    | .ok _ =>
      (.ok (textResult ("✅ Container \x27" ++ optStr args.name ++
        "\x27 created and started successfully!\nID: " ++ jsSubstring cid 0 12)),
       [createCall, startCall])
  | .ok _ => (.error (.jsType "TypeError: response shape mismatch"), [createCall])

/-! Handler: listImages. -/

structure ImageView where
  id : String
  tags : List String
  size : String
  created : String
  deriving DecidableEq, Repr

def pad2 (n : Nat) : String := if n < 10 then "0" ++ toString n else toString n

/-- Integer model of the JS float expression (bytes / divisor).toFixed(2)
(rounding to the nearest hundredth; the binary-float digit string can
differ in the last place, and no claim depends on it). -/
def toFixed2 (bytes divisor : Nat) : String :=
  let hundredths := (bytes * 100 + divisor / 2) / divisor
  toString (hundredths / 100) ++ "." ++ pad2 (hundredths % 100)

/-- Stand-in for new Date(epoch * 1000).toLocaleDateString(), whose output
is locale- and timezone-dependent; modelled as the epoch count in decimal
(no claim depends on it). -/
def localeDateString (epochSeconds : Nat) : String := toString epochSeconds

def imageView (img : RemoteImage) : ImageView :=
  { id := jsSubstring img.Id 7 19
    tags := img.RepoTags.getD ["<none>"]
    size := toFixed2 img.Size 1048576 ++ " MB"
    created := localeDateString img.Created }

def imageLine (v : ImageView) : String :=
  "🖼️  " ++ String.intercalate ", " v.tags ++ "\n   ID: " ++ v.id ++
    "\n   Size: " ++ v.size ++ "\n   Created: " ++ v.created ++ "\n"

def imagesCall : ApiCall :=
  { method := "GET", path := imagesPath, params := [], body := none }

def listImages (oracle : ApiCall → ApiOutcome) : HandlerOut :=
  match callApi oracle imagesCall with
  | .error e => (.error e, [imagesCall])
  | .ok (.images imgs) =>
    let views := imgs.map imageView
    (.ok (textResult ("Found " ++ toString views.length ++ " images:\n\n" ++
      String.intercalate "\n" (views.map imageLine))), [imagesCall])
  | .ok _ => (.error (.jsType "TypeError: response shape mismatch"), [imagesCall])

/-! Handler: listVolumes (response.data.Volumes || []). -/

def volumeLine (v : RemoteVolume) : String :=
  "💾 " ++ v.Name ++ "\n   Driver: " ++ v.Driver ++ "\n   Mountpoint: " ++
    v.Mountpoint ++ "\n"

def volumesCall : ApiCall :=
  { method := "GET", path := volumesPath, params := [], body := none }

def listVolumes (oracle : ApiCall → ApiOutcome) : HandlerOut :=
  match callApi oracle volumesCall with
  | .error e => (.error e, [volumesCall])
  | .ok (.volumes vs) =>
    let volumes := vs.getD []
    (.ok (textResult ("Found " ++ toString volumes.length ++ " volumes:\n\n" ++
      String.intercalate "\n" (volumes.map volumeLine))), [volumesCall])
  | .ok _ => (.error (.jsType "TypeError: response shape mismatch"), [volumesCall])

/-! Handler: listNetworks. -/

structure NetworkView where
  id : String
  name : String
  driver : String
  scope : String
  deriving DecidableEq, Repr

def networkView (n : RemoteNetwork) : NetworkView :=
  { id := jsSubstring n.Id 0 12, name := n.Name, driver := n.Driver, scope := n.Scope }

def networkLine (v : NetworkView) : String :=
  "🌐 " ++ v.name ++ " (" ++ v.id ++ ")\n   Driver: " ++ v.driver ++
    "\n   Scope: " ++ v.scope ++ "\n"

def networksCall : ApiCall :=
  { method := "GET", path := networksPath, params := [], body := none }

def listNetworks (oracle : ApiCall → ApiOutcome) : HandlerOut :=
  match callApi oracle networksCall with
  | .error e => (.error e, [networksCall])
  | .ok (.networks ns) =>
    let views := ns.map networkView
    (.ok (textResult ("Found " ++ toString views.length ++ " networks:\n\n" ++
      String.intercalate "\n" (views.map networkLine))), [networksCall])
  | .ok _ => (.error (.jsType "TypeError: response shape mismatch"), [networksCall])

/-! Handler: getSystemInfo. -/

def infoCall : ApiCall :=
  { method := "GET", path := infoPath, params := [], body := none }

def getSystemInfo (oracle : ApiCall → ApiOutcome) : HandlerOut :=
  match callApi oracle infoCall with
  | .error e => (.error e, [infoCall])
  | .ok (.sysInfo i) =>
    (.ok (textResult ("Docker System Information:\n\n" ++
      "🖥️  Server Version: " ++ i.ServerVersion ++ "\n" ++
      "🐧 OS: " ++ i.OperatingSystem ++ "\n" ++
      "🏗️  Architecture: " ++ i.Architecture ++ "\n" ++
      "💾 Total Memory: " ++ toFixed2 i.MemTotal 1073741824 ++ " GB\n" ++
      "🧮 CPUs: " ++ toString i.NCPU ++ "\n" ++
      "📦 Containers: " ++ toString i.Containers ++ " (Running: " ++
        toString i.ContainersRunning ++ ")\n" ++
      "🖼️  Images: " ++ toString i.Images ++ "\n" ++
      "💿 Storage Driver: " ++ i.Driver ++ "\n" ++
      "📂 Docker Root: " ++ i.DockerRootDir)), [infoCall])
  | .ok _ => (.error (.jsType "TypeError: response shape mismatch"), [infoCall])

/-! Handler: deployStack. -/

def buildStackData (args : Args) : StackData :=
  { Name := args.name
    StackFileContent := args.compose_content
    Env := args.stackEnv.getD [] }

def stacksCallOf (args : Args) : ApiCall :=
  { method := "POST"
    path := stacksPath
    params := []
    body := some (.stackCreate (buildStackData args)) }

def deployStack (oracle : ApiCall → ApiOutcome) (args : Args) : HandlerOut :=
  let call := stacksCallOf args
  match callApi oracle call with
  | .error e => (.error e, [call])
  | .ok (.stack sid) =>
    (.ok (textResult ("✅ Stack \x27" ++ optStr args.name ++
      "\x27 deployed successfully!\nStack ID: " ++ sid)), [call])
  | .ok _ => (.error (.jsType "TypeError: response shape mismatch"), [call])

/-! The CallTool dispatcher (src/server.js lines 255-342). -/

structure ToolCall where
  name : String
  arguments : Args
  deriving DecidableEq, Repr

/-- The switch statement of the CallTool handler, including the
confirmation gates. -/
def dispatch (oracle : ApiCall → ApiOutcome) (req : ToolCall) : HandlerOut :=
  let args := req.arguments
  match req.name with
  | "portainer_list_containers" => listContainers oracle args.all
  | "portainer_container_info" => getContainerInfo oracle (optStr args.container_id)
  | "portainer_container_logs" =>
    getContainerLogs oracle (optStr args.container_id) args.tail
  | "portainer_container_action" =>
    match args.action with
    | none =>
      (.error (.jsType
        "TypeError: Cannot read properties of undefined (reading \x27toLowerCase\x27)"),
       [])
    | some act =>
      if requiresConfirmation act && !confirmGiven args.confirm then
        (.ok (textResult ("⚠️ This action (" ++ act ++
          ") requires confirmation. Please set confirm=true to proceed.")), [])
      else containerAction oracle (optStr args.container_id) act
  | "portainer_create_container" =>
    if !confirmGiven args.confirm then
      (.ok (textResult
        "⚠️ Creating a container requires confirmation. Please set confirm=true to proceed."),
       [])
    else createContainer oracle args
  | "portainer_list_images" => listImages oracle
  | "portainer_list_volumes" => listVolumes oracle
  | "portainer_list_networks" => listNetworks oracle
  | "portainer_system_info" => getSystemInfo oracle
  | "portainer_deploy_stack" =>
    if !confirmGiven args.confirm then
      (.ok (textResult
        "⚠️ Deploying a stack requires confirmation. Please set confirm=true to proceed."),
       [])
    else deployStack oracle args
  | _ => (.error (.mcp .methodNotFound ("Unknown tool: " ++ req.name)), [])

/-- The catch block: an axios error carrying a response is wrapped into an
McpError embedding the status and the stringified response data; every
other error is rethrown unchanged. -/
def wrapError (e : HandlerError) : HandlerError :=
  match e with
  | .axiosHttp s b =>
    .mcp .internalError ("Portainer API error: " ++ toString s ++ " - " ++ b)
  | e => e

/-- The full CallTool request handler: the per-call PORTAINER_TOKEN check,
then dispatch, then the catch block. -/
def handleCallTool (token : Option String) (oracle : ApiCall → ApiOutcome)
    (req : ToolCall) : HandlerOut :=
  if jsFalsyStr token then
    (.error (.mcp .internalError "PORTAINER_TOKEN not configured"), [])
  else
    let out := dispatch oracle req
    (match out.1 with
     | .error e => .error (wrapError e)
     | .ok r => .ok r, out.2)

/-! The tool registry returned by the ListTools handler
(src/server.js lines 58-253). -/

/-- JSON-schema fragments as declared in the source; string properties may
carry a description, an enumerated value set, and a default; objects carry
their property list (in declaration order) and an optional required list
(absent when the source declares none). -/
inductive Schema
  | obj (properties : List (String × Schema)) (required : Option (List String))
  | str (description : Option String) (enumVals : Option (List String))
      (defaultVal : Option String)
  | num (description : Option String) (defaultVal : Option Nat)
  | bool (description : Option String) (defaultVal : Option Bool)
  | arr (description : Option String) (items : Schema)

structure ToolDescriptor where
  name : String
  description : String
  inputSchema : Schema

def tools : List ToolDescriptor :=
  [ { name := "portainer_list_containers"
      description := "List all containers on the NAS"
      inputSchema := .obj
        [("all", .bool (some "Show all containers (including stopped)") (some true))]
        none }
  , { name := "portainer_container_info"
      description := "Get detailed info about a specific container"
      inputSchema := .obj
        [("container_id", .str (some "Container ID or name") none none)]
        (some ["container_id"]) }
  , { name := "portainer_container_logs"
      description := "Get logs from a container"
      inputSchema := .obj
        [ ("container_id", .str (some "Container ID or name") none none)
        , ("tail", .num (some "Number of lines to show from the end") (some 100)) ]
        (some ["container_id"]) }
  , { name := "portainer_container_action"
      description := "Perform action on container (start/stop/restart/pause/unpause)"
      inputSchema := .obj
        [ ("container_id", .str (some "Container ID or name") none none)
        , ("action", .str (some "Action to perform")
            (some ["start", "stop", "restart", "pause", "unpause"]) none)
        , ("confirm", .bool (some "Confirmation for destructive actions") (some false)) ]
        (some ["container_id", "action"]) }
  , { name := "portainer_create_container"
      description := "Create a new container from an image"
      inputSchema := .obj
        [ ("name", .str (some "Container name") none none)
        , ("image", .str (some "Docker image to use") none none)
        , ("env", .arr (some "Environment variables (KEY=VALUE format)")
            (.str none none none))
        , ("ports", .arr (some "Port mappings")
            (.obj [("host", .num none none), ("container", .num none none)] none))
        , ("volumes", .arr (some "Volume mappings")
            (.obj [("host", .str none none none), ("container", .str none none none)]
              none))
        , ("restart_policy", .str none
            (some ["no", "always", "unless-stopped", "on-failure"])
            (some "unless-stopped"))
        , ("confirm", .bool (some "Confirmation to create container") (some false)) ]
        (some ["name", "image", "confirm"]) }
  , { name := "portainer_list_images"
      description := "List all Docker images on the NAS"
      inputSchema := .obj [] none }
  , { name := "portainer_list_volumes"
      description := "List all Docker volumes on the NAS"
      inputSchema := .obj [] none }
  , { name := "portainer_list_networks"
      description := "List all Docker networks on the NAS"
      inputSchema := .obj [] none }
  , { name := "portainer_system_info"
      description := "Get Docker system information"
      inputSchema := .obj [] none }
  , { name := "portainer_deploy_stack"
      description := "Deploy a docker-compose stack"
      inputSchema := .obj
        [ ("name", .str (some "Stack name") none none)
        , ("compose_content", .str (some "Docker compose file content (YAML)") none none)
        , ("env", .arr (some "Environment variables for the stack")
            (.obj [("name", .str none none none), ("value", .str none none none)] none))
        , ("confirm", .bool (some "Confirmation to deploy stack") (some false)) ]
        (some ["name", "compose_content", "confirm"]) }
  ]

def toolNames : List String := tools.map ToolDescriptor.name

def schemaRequired : Schema → Option (List String)
  | .obj _ req => req
  | _ => none

def findTool (n : String) : Option ToolDescriptor :=
  tools.find? (fun t => decide (t.name = n))

/-- The required-field list of a registered tool (none when the tool is
absent; some (req.getD []) when present, since an absent required key means
no required parameters). -/
def toolRequired (n : String) : Option (List String) :=
  (findTool n).map (fun t => (schemaRequired t.inputSchema).getD [])

def schemaPropEnum (s : Schema) (p : String) : Option (List String) :=
  match s with
  | .obj props _ =>
    match props.find? (fun q => decide (q.1 = p)) with
    | some (_, .str _ e _) => e
    | _ => none
  | _ => none

def toolPropEnum (n p : String) : Option (List String) :=
  match findTool n with
  | some t => schemaPropEnum t.inputSchema p
  | none => none

/-! Basic lemmas about the JavaScript string primitives. -/

theorem strAppend_data (a b : String) : (a ++ b).data = a.data ++ b.data := by
  cases a; cases b; rfl

theorem startsWithL_iff (p : List Char) :
    ∀ s, (startsWithL s p = true ↔ ∃ post, s = p ++ post) := by
  induction p with
  | nil =>
    intro s
    constructor
    · intro _; exact ⟨s, rfl⟩
    · intro _; cases s <;> rfl
  | cons d p ih =>
    intro s
    cases s with
    | nil =>
      constructor
      · intro h; simp [startsWithL] at h
      · rintro ⟨post, h⟩; simp at h
    | cons c t =>
      constructor
      · intro h
        simp only [startsWithL, Bool.and_eq_true, decide_eq_true_eq] at h
        obtain ⟨hcd, hrest⟩ := h
        obtain ⟨post, hp⟩ := (ih t).mp hrest
        exact ⟨post, by simp [hcd, hp]⟩
      · rintro ⟨post, h⟩
        simp only [List.cons_append, List.cons.injEq] at h
        obtain ⟨hcd, ht⟩ := h
        simp only [startsWithL, Bool.and_eq_true, decide_eq_true_eq]
        exact ⟨hcd, (ih t).mpr ⟨post, ht⟩⟩

theorem listContainsSub_iff (p : List Char) :
    ∀ s, (listContainsSub s p = true ↔ ∃ pre post, s = pre ++ p ++ post) := by
  intro s
  induction s with
  | nil =>
    rw [show listContainsSub [] p = startsWithL [] p from rfl, startsWithL_iff]
    constructor
    · rintro ⟨post, h⟩; exact ⟨[], post, by simpa using h⟩
    · rintro ⟨pre, post, h⟩
      have h2 := h.symm
      simp only [List.append_assoc, List.append_eq_nil] at h2
      exact ⟨post, by simp [h2.1, h2.2.1, h2.2.2]⟩
  | cons c t ih =>
    rw [show listContainsSub (c :: t) p =
          (startsWithL (c :: t) p || listContainsSub t p) from rfl]
    rw [Bool.or_eq_true, startsWithL_iff, ih]
    constructor
    · rintro (⟨post, h⟩ | ⟨pre, post, h⟩)
      · exact ⟨[], post, by simpa using h⟩
      · exact ⟨c :: pre, post, by simp [h]⟩
    · rintro ⟨pre, post, h⟩
      cases pre with
      | nil => exact Or.inl ⟨post, by simpa using h⟩
      | cons x xs =>
        right
        simp only [List.cons_append, List.cons.injEq] at h
        exact ⟨xs, post, h.2⟩

theorem strIncludes_append_right (a b : String) : strIncludes (a ++ b) b = true :=
  (listContainsSub_iff b.data (a ++ b).data).mpr
    ⟨a.data, [], by simp [strAppend_data]⟩

/-- C1: requiresConfirmation(actionName) is true exactly when the lowered
action name contains one of the six destructive markers as a substring, and
it evaluates as the spec lists on the eleven sample action names. -/
theorem requiresConfirmation_correct :
    (∀ a : String, requiresConfirmation a = true ↔
      ∃ w ∈ dangerous, ∃ pre post, (jsToLower a).data = pre ++ w.data ++ post)
    ∧ requiresConfirmation "stop" = true
    ∧ requiresConfirmation "restart" = true
    ∧ requiresConfirmation "kill" = true
    ∧ requiresConfirmation "prune" = true
    ∧ requiresConfirmation "remove" = true
    ∧ requiresConfirmation "delete" = true
    ∧ requiresConfirmation "force-stop" = true
    ∧ requiresConfirmation "start" = false
    ∧ requiresConfirmation "pause" = false
    ∧ requiresConfirmation "unpause" = false := by
  refine ⟨?_, by decide, by decide, by decide, by decide, by decide, by decide,
    by decide, by decide, by decide, by decide⟩
  intro a
  simp only [requiresConfirmation, List.any_eq_true]
  constructor
  · rintro ⟨w, hw, h⟩
    exact ⟨w, hw, (listContainsSub_iff w.data (jsToLower a).data).mp h⟩
  · rintro ⟨w, hw, h⟩
    exact ⟨w, hw, (listContainsSub_iff w.data (jsToLower a).data).mpr h⟩

/-! Reduction lemmas for the dispatcher at each concrete tool name. -/

theorem dispatch_action (oracle : ApiCall → ApiOutcome) (args : Args) :
    dispatch oracle { name := "portainer_container_action", arguments := args } =
      (match args.action with
       | none =>
         (.error (.jsType
           "TypeError: Cannot read properties of undefined (reading \x27toLowerCase\x27)"),
          [])
       | some act =>
         if requiresConfirmation act && !confirmGiven args.confirm then
           (.ok (textResult ("⚠️ This action (" ++ act ++
             ") requires confirmation. Please set confirm=true to proceed.")), [])
         else containerAction oracle (optStr args.container_id) act) := rfl

theorem dispatch_create (oracle : ApiCall → ApiOutcome) (args : Args) :
    dispatch oracle { name := "portainer_create_container", arguments := args } =
      (if !confirmGiven args.confirm then
        (.ok (textResult
          "⚠️ Creating a container requires confirmation. Please set confirm=true to proceed."),
         [])
      else createContainer oracle args) := rfl

theorem dispatch_deploy (oracle : ApiCall → ApiOutcome) (args : Args) :
    dispatch oracle { name := "portainer_deploy_stack", arguments := args } =
      (if !confirmGiven args.confirm then
        (.ok (textResult
          "⚠️ Deploying a stack requires confirmation. Please set confirm=true to proceed."),
         [])
      else deployStack oracle args) := rfl

theorem dispatch_listContainers (oracle : ApiCall → ApiOutcome) (args : Args) :
    dispatch oracle { name := "portainer_list_containers", arguments := args } =
      listContainers oracle args.all := rfl

theorem handleCallTool_present (token : String) (oracle : ApiCall → ApiOutcome)
    (req : ToolCall) (htok : token ≠ "") :
    handleCallTool (some token) oracle req =
      (match (dispatch oracle req).1 with
       | .error e => .error (wrapError e)
       | .ok r => .ok r, (dispatch oracle req).2) := by
  have hfal : jsFalsyStr (some token) = false := by
    simp [jsFalsyStr, htok]
  rw [handleCallTool, hfal]
  simp

/-- C4: when the PORTAINER_TOKEN credential is absent, every tool
invocation — any tool name (known or unknown), any arguments, any remote
behaviour — fails with the misconfiguration error before dispatch, and the
list of issued remote calls is empty.  The check sits inside the per-call
handler, so it runs once per call. -/
theorem missingToken_failsEveryCall (name : String) (args : Args)
    (oracle : ApiCall → ApiOutcome) :
    handleCallTool none oracle { name := name, arguments := args } =
      (.error (.mcp .internalError "PORTAINER_TOKEN not configured"), []) := rfl

/-- C2: a container_action whose action requires confirmation, and any
create_container or deploy_stack invocation, with confirm absent or false,
returns a successful warning ToolResult and issues zero remote calls. -/
theorem confirmationGate_blocks (token act : String) (args : Args)
    (oracle : ApiCall → ApiOutcome) (htok : token ≠ "") :
    (args.action = some act → requiresConfirmation act = true →
      confirmGiven args.confirm = false →
      handleCallTool (some token) oracle
          { name := "portainer_container_action", arguments := args } =
        (.ok (textResult ("⚠️ This action (" ++ act ++
          ") requires confirmation. Please set confirm=true to proceed.")), []))
    ∧ (confirmGiven args.confirm = false →
      handleCallTool (some token) oracle
          { name := "portainer_create_container", arguments := args } =
        (.ok (textResult
          "⚠️ Creating a container requires confirmation. Please set confirm=true to proceed."),
         []))
    ∧ (confirmGiven args.confirm = false →
      handleCallTool (some token) oracle
          { name := "portainer_deploy_stack", arguments := args } =
        (.ok (textResult
          "⚠️ Deploying a stack requires confirmation. Please set confirm=true to proceed."),
         [])) := by
  refine ⟨?_, ?_, ?_⟩
  · intro ha hreq hcon
    rw [handleCallTool_present token oracle _ htok, dispatch_action, ha]
    simp [hreq, hcon]
  · intro hcon
    rw [handleCallTool_present token oracle _ htok, dispatch_create]
    simp [hcon]
  · intro hcon
    rw [handleCallTool_present token oracle _ htok, dispatch_deploy]
    simp [hcon]

/-- Witness for C2 at concrete inputs: action "stop" with confirm absent is
blocked; create_container and deploy_stack with confirm absent are blocked. -/
theorem confirmationGate_blocks_witness :
    (handleCallTool (some "tok") (fun _ => .ok .empty)
        { name := "portainer_container_action", arguments := { action := some "stop" } } =
      (.ok (textResult ("⚠️ This action (" ++ "stop" ++
        ") requires confirmation. Please set confirm=true to proceed.")), []))
    ∧ (handleCallTool (some "tok") (fun _ => .ok .empty)
        { name := "portainer_create_container", arguments := { action := some "stop" } } =
      (.ok (textResult
        "⚠️ Creating a container requires confirmation. Please set confirm=true to proceed."),
       []))
    ∧ (handleCallTool (some "tok") (fun _ => .ok .empty)
        { name := "portainer_deploy_stack", arguments := { action := some "stop" } } =
      (.ok (textResult
        "⚠️ Deploying a stack requires confirmation. Please set confirm=true to proceed."),
       [])) := by
  have h := confirmationGate_blocks "tok" "stop" { action := some "stop" }
    (fun _ => .ok .empty) (by decide)
  exact ⟨h.1 rfl (by decide) rfl, h.2.1 rfl, h.2.2 rfl⟩

/-- C7: an unknown tool name fails with a method-not-found error whose
message contains the requested name, and zero remote calls are issued. -/
theorem unknownTool_notFound (name token : String) (args : Args)
    (oracle : ApiCall → ApiOutcome) (htok : token ≠ "") (hn : name ∉ toolNames) :
    handleCallTool (some token) oracle { name := name, arguments := args } =
      (.error (.mcp .methodNotFound ("Unknown tool: " ++ name)), [])
    ∧ strIncludes ("Unknown tool: " ++ name) name = true := by
  refine ⟨?_, strIncludes_append_right _ _⟩
  have hd : dispatch oracle { name := name, arguments := args } =
      (.error (.mcp .methodNotFound ("Unknown tool: " ++ name)), []) := by
    simp only [dispatch]
    split
    all_goals
      first
      | rfl
      | exact absurd (by decide) hn
  rw [handleCallTool_present token oracle _ htok, hd]
  rfl

/-- Witness for C7: the unknown name foo_bar fails with a not-found error
mentioning foo_bar, with zero remote calls. -/
theorem unknownTool_notFound_witness :
    (handleCallTool (some "tok") (fun _ => .ok .empty)
        { name := "foo_bar", arguments := {} } =
      (.error (.mcp .methodNotFound ("Unknown tool: " ++ "foo_bar")), []))
    ∧ strIncludes ("Unknown tool: " ++ "foo_bar") "foo_bar" = true :=
  unknownTool_notFound "foo_bar" "tok" {} (fun _ => .ok .empty) (by decide) (by decide)

/-- C3 counterexample: the registry holds no descriptor named
list_containers — the registered names all carry the portainer_ prefix, so
the list-tools operation does not return exactly one descriptor for the
claimed name. -/
theorem tableName_has_no_descriptor :
    tools.countP (fun t => decide (t.name = "list_containers")) = 0 := by decide

/-- C3 amended: for every tool name of the table prefixed with portainer_,
the registry holds exactly one descriptor with that name, its schema marks
as required exactly the parameters the table lists, and the action
parameter of portainer_container_action is restricted to start, stop,
restart, pause, unpause. -/
theorem toolRegistry_matches_table :
    tools.map ToolDescriptor.name =
      [ "portainer_list_containers", "portainer_container_info"
      , "portainer_container_logs", "portainer_container_action"
      , "portainer_create_container", "portainer_list_images"
      , "portainer_list_volumes", "portainer_list_networks"
      , "portainer_system_info", "portainer_deploy_stack" ]
    ∧ tools.countP (fun t => decide (t.name = "portainer_list_containers")) = 1
    ∧ tools.countP (fun t => decide (t.name = "portainer_container_info")) = 1
    ∧ tools.countP (fun t => decide (t.name = "portainer_container_logs")) = 1
    ∧ tools.countP (fun t => decide (t.name = "portainer_container_action")) = 1
    ∧ tools.countP (fun t => decide (t.name = "portainer_create_container")) = 1
    ∧ tools.countP (fun t => decide (t.name = "portainer_list_images")) = 1
    ∧ tools.countP (fun t => decide (t.name = "portainer_list_volumes")) = 1
    ∧ tools.countP (fun t => decide (t.name = "portainer_list_networks")) = 1
    ∧ tools.countP (fun t => decide (t.name = "portainer_system_info")) = 1
    ∧ tools.countP (fun t => decide (t.name = "portainer_deploy_stack")) = 1
    ∧ toolRequired "portainer_list_containers" = some []
    ∧ toolRequired "portainer_container_info" = some ["container_id"]
    ∧ toolRequired "portainer_container_logs" = some ["container_id"]
    ∧ toolRequired "portainer_container_action" = some ["container_id", "action"]
    ∧ toolRequired "portainer_create_container" = some ["name", "image", "confirm"]
    ∧ toolRequired "portainer_list_images" = some []
    ∧ toolRequired "portainer_list_volumes" = some []
    ∧ toolRequired "portainer_list_networks" = some []
    ∧ toolRequired "portainer_system_info" = some []
    ∧ toolRequired "portainer_deploy_stack" = some ["name", "compose_content", "confirm"]
    ∧ toolPropEnum "portainer_container_action" "action" =
        some ["start", "stop", "restart", "pause", "unpause"] := by
  refine ⟨rfl, ?_, ?_, ?_, ?_, ?_, ?_, ?_, ?_, ?_, ?_, rfl, rfl, rfl, rfl, rfl,
    rfl, rfl, rfl, rfl, rfl, rfl⟩
  all_goals decide

/-- Arguments populating every parameter, with confirm set, so that every
tool reaches its remote call. -/
def fullArgs : Args :=
  { all := some true
    container_id := some "c1"
    action := some "stop"
    tail := some 50
    confirm := some true
    name := some "web"
    image := some "nginx:latest"
    env := some ["A=1"]
    ports := some [{ host := 8080, container := 80 }]
    volumes := some [{ host := "/data", container := "/var/lib" }]
    restart_policy := some "always"
    compose_content := some "version: 3"
    stackEnv := some [{ name := "K", value := "V" }] }

/-- C6: a non-success remote response surfaces as a single McpError
embedding the status code and response body.  For every tool, when the
remote API answers every call with an HTTP error, exactly the first remote
call is issued (no retry); and when the start call of create_container fails
after a successful create, the error is surfaced and the call list is
exactly create-then-start — no cleanup call for the created container. -/
theorem remoteFailure_surfaced (token cid b : String) (s : Nat) (args : Args)
    (oracle : ApiCall → ApiOutcome) (htok : token ≠ "")
    (hconfirm : confirmGiven args.confirm = true)
    (hcreate : oracle (createCallOf args) = .ok (.created cid))
    (hstart : oracle (startCallOf cid) = .httpErr s b) :
    (handleCallTool (some token) (fun _ => .httpErr s b)
        { name := "portainer_list_containers", arguments := fullArgs } =
      (.error (.mcp .internalError ("Portainer API error: " ++ toString s ++ " - " ++ b)),
       [containersCallOf (some true)]))
    ∧ (handleCallTool (some token) (fun _ => .httpErr s b)
        { name := "portainer_container_info", arguments := fullArgs } =
      (.error (.mcp .internalError ("Portainer API error: " ++ toString s ++ " - " ++ b)),
       [containerInfoCallOf "c1"]))
    ∧ (handleCallTool (some token) (fun _ => .httpErr s b)
        { name := "portainer_container_logs", arguments := fullArgs } =
      (.error (.mcp .internalError ("Portainer API error: " ++ toString s ++ " - " ++ b)),
       [containerLogsCallOf "c1" 50]))
    ∧ (handleCallTool (some token) (fun _ => .httpErr s b)
        { name := "portainer_container_action", arguments := fullArgs } =
      (.error (.mcp .internalError ("Portainer API error: " ++ toString s ++ " - " ++ b)),
       [containerActionCallOf "c1" "stop"]))
    ∧ (handleCallTool (some token) (fun _ => .httpErr s b)
        { name := "portainer_create_container", arguments := fullArgs } =
      (.error (.mcp .internalError ("Portainer API error: " ++ toString s ++ " - " ++ b)),
       [createCallOf fullArgs]))
    ∧ (handleCallTool (some token) (fun _ => .httpErr s b)
        { name := "portainer_list_images", arguments := fullArgs } =
      (.error (.mcp .internalError ("Portainer API error: " ++ toString s ++ " - " ++ b)),
       [imagesCall]))
    ∧ (handleCallTool (some token) (fun _ => .httpErr s b)
        { name := "portainer_list_volumes", arguments := fullArgs } =
      (.error (.mcp .internalError ("Portainer API error: " ++ toString s ++ " - " ++ b)),
       [volumesCall]))
    ∧ (handleCallTool (some token) (fun _ => .httpErr s b)
        { name := "portainer_list_networks", arguments := fullArgs } =
      (.error (.mcp .internalError ("Portainer API error: " ++ toString s ++ " - " ++ b)),
       [networksCall]))
    ∧ (handleCallTool (some token) (fun _ => .httpErr s b)
        { name := "portainer_system_info", arguments := fullArgs } =
      (.error (.mcp .internalError ("Portainer API error: " ++ toString s ++ " - " ++ b)),
       [infoCall]))
    ∧ (handleCallTool (some token) (fun _ => .httpErr s b)
        { name := "portainer_deploy_stack", arguments := fullArgs } =
      (.error (.mcp .internalError ("Portainer API error: " ++ toString s ++ " - " ++ b)),
       [stacksCallOf fullArgs]))
    ∧ (handleCallTool (some token) oracle
        { name := "portainer_create_container", arguments := args } =
      (.error (.mcp .internalError ("Portainer API error: " ++ toString s ++ " - " ++ b)),
       [createCallOf args, startCallOf cid])) := by
  refine ⟨?_, ?_, ?_, ?_, ?_, ?_, ?_, ?_, ?_, ?_, ?_⟩
  case _ => rw [handleCallTool_present token _ _ htok]; rfl
  case _ => rw [handleCallTool_present token _ _ htok]; rfl
  case _ => rw [handleCallTool_present token _ _ htok]; rfl
  case _ => rw [handleCallTool_present token _ _ htok]; rfl
  case _ => rw [handleCallTool_present token _ _ htok]; rfl
  case _ => rw [handleCallTool_present token _ _ htok]; rfl
  case _ => rw [handleCallTool_present token _ _ htok]; rfl
  case _ => rw [handleCallTool_present token _ _ htok]; rfl
  case _ => rw [handleCallTool_present token _ _ htok]; rfl
  case _ => rw [handleCallTool_present token _ _ htok]; rfl
  case _ =>
    rw [handleCallTool_present token _ _ htok, dispatch_create]
    rw [hconfirm]
    simp only [Bool.not_true, Bool.false_eq_true, if_false]
    simp [createContainer, callApi, hcreate, hstart, wrapError]

/-- A remote that answers the create call with a created id and every
other call with an HTTP 500 error. -/
def createOkStartFail : ApiCall → ApiOutcome := fun c =>
  if c.path = createPath then .ok (.created "0123456789abcdef0123")
  else .httpErr 500 "boom"

/-- Witness for C6: concrete create-then-start failure leaves exactly the
two calls and surfaces the wrapped 500 error. -/
theorem remoteFailure_surfaced_witness :
    handleCallTool (some "tok") createOkStartFail
        { name := "portainer_create_container", arguments := fullArgs } =
      (.error (.mcp .internalError
        ("Portainer API error: " ++ toString 500 ++ " - " ++ "boom")),
       [createCallOf fullArgs, startCallOf "0123456789abcdef0123"]) :=
  (remoteFailure_surfaced "tok" "0123456789abcdef0123" "boom" 500 fullArgs
    createOkStartFail (by decide) rfl rfl rfl).2.2.2.2.2.2.2.2.2.2

/-! Lemmas about the JS object model used for ExposedPorts and
PortBindings. -/

theorem objLookup_replace (m : List (String × List String)) (k : String)
    (v : List String) (h : objHasKey m k = true) :
    objLookup (m.map (fun q => if q.1 = k then (k, v) else q)) k = some v := by
  induction m with
  | nil => simp [objHasKey] at h
  | cons q t ih =>
    by_cases hq : q.1 = k
    · simp [objLookup, hq]
    · have h2 : objHasKey t k = true := by
        simp only [objHasKey, List.any_cons, Bool.or_eq_true,
          decide_eq_true_eq] at h
        rcases h with h | h
        · exact absurd h hq
        · exact h
      simp only [List.map_cons, if_neg hq, objLookup]
      exact ih h2

theorem objLookup_append (m : List (String × List String)) (k : String)
    (v : List String) (h : objHasKey m k = false) :
    objLookup (m ++ [(k, v)]) k = some v := by
  induction m with
  | nil => simp [objLookup]
  | cons q t ih =>
    simp only [objHasKey, List.any_cons, Bool.or_eq_false_iff,
      decide_eq_false_iff_not] at h
    simp only [List.cons_append, objLookup, if_neg h.1]
    exact ih (by simpa [objHasKey] using h.2)

theorem objSet_lookup_self (m : List (String × List String)) (k : String)
    (v : List String) : objLookup (objSet m k v) k = some v := by
  rw [objSet]
  split
  · rename_i h; exact objLookup_replace m k v h
  · rename_i h; exact objLookup_append m k v (by simpa using h)

theorem objLookup_map_ne (m : List (String × List String)) (k : String)
    (v : List String) (k' : String) (hne : k' ≠ k) :
    objLookup (m.map (fun q => if q.1 = k then (k, v) else q)) k' =
      objLookup m k' := by
  induction m with
  | nil => rfl
  | cons q t ih =>
    simp only [List.map_cons, objLookup]
    by_cases hq : q.1 = k
    · have hq' : q.1 ≠ k' := by rw [hq]; exact fun hh => hne hh.symm
      have hk' : k ≠ k' := fun hh => hne hh.symm
      rw [if_pos hq]
      show (if k = k' then some v else _) = _
      rw [if_neg hk', if_neg hq', ih]
    · rw [if_neg hq]
      by_cases hq2 : q.1 = k'
      · rw [if_pos hq2, if_pos hq2]
      · rw [if_neg hq2, if_neg hq2, ih]

theorem objLookup_append_ne (m : List (String × List String)) (k : String)
    (v : List String) (k' : String) (hne : k' ≠ k) :
    objLookup (m ++ [(k, v)]) k' = objLookup m k' := by
  induction m with
  | nil =>
    have hk : k ≠ k' := fun hh => hne hh.symm
    simp [objLookup, hk]
  | cons q t ih =>
    by_cases hq : q.1 = k'
    · simp [objLookup, hq]
    · simp [objLookup, hq, ih]

theorem objSet_lookup_ne (m : List (String × List String)) (k : String)
    (v : List String) (k' : String) (hne : k' ≠ k) :
    objLookup (objSet m k v) k' = objLookup m k' := by
  rw [objSet]
  split
  · exact objLookup_map_ne m k v k' hne
  · exact objLookup_append_ne m k v k' hne

theorem keyMem_objSetKey_self (ks : List String) (k : String) :
    keyMem (objSetKey ks k) k = true := by
  rw [objSetKey]
  split
  · assumption
  · simp [keyMem, List.any_append, List.any_cons]

theorem keyMem_objSetKey_mono (ks : List String) (k k' : String)
    (h : keyMem ks k = true) : keyMem (objSetKey ks k') k = true := by
  rw [objSetKey]
  split
  · exact h
  · rw [keyMem, List.any_append]
    rw [keyMem] at h
    simp [h]

theorem portFold_preserve (ps : List PortMapping) (k : String) :
    ∀ acc : List String × List (String × List String),
      (∀ r ∈ ps, portKey r ≠ k) →
      objLookup (ps.foldl portStep acc).2 k = objLookup acc.2 k
      ∧ (keyMem acc.1 k = true → keyMem (ps.foldl portStep acc).1 k = true) := by
  induction ps with
  | nil => exact fun acc _ => ⟨rfl, fun hh => hh⟩
  | cons r rs ih =>
    intro acc h
    rw [List.foldl_cons]
    have hr : portKey r ≠ k := h r (List.mem_cons_self r rs)
    have hrs : ∀ x ∈ rs, portKey x ≠ k := fun x hx => h x (List.mem_cons_of_mem r hx)
    obtain ⟨h1, h2⟩ := ih (portStep acc r) hrs
    refine ⟨?_, ?_⟩
    · rw [h1]
      exact objSet_lookup_ne acc.2 (portKey r) [toString r.host] k (Ne.symm hr)
    · intro hmem
      exact h2 (keyMem_objSetKey_mono acc.1 k (portKey r) hmem)

theorem portFold_correct (ports : List PortMapping)
    (hnd : (ports.map portKey).Nodup) :
    ∀ acc, ∀ p ∈ ports,
      objLookup (ports.foldl portStep acc).2 (portKey p) = some [toString p.host]
      ∧ keyMem (ports.foldl portStep acc).1 (portKey p) = true := by
  induction ports with
  | nil => intro acc p hp; cases hp
  | cons r rs ih =>
    rw [List.map_cons, List.nodup_cons] at hnd
    obtain ⟨hnotin, hnd2⟩ := hnd
    intro acc p hp
    rw [List.foldl_cons]
    rcases List.mem_cons.mp hp with heq | hmem
    · subst heq
      have hrs : ∀ x ∈ rs, portKey x ≠ portKey p := by
        intro x hx hcontra
        exact hnotin (hcontra ▸ List.mem_map_of_mem portKey hx)
      obtain ⟨h1, h2⟩ := portFold_preserve rs (portKey p) (portStep acc p) hrs
      refine ⟨?_, ?_⟩
      · rw [h1]
        exact objSet_lookup_self acc.2 (portKey p) [toString p.host]
      · exact h2 (keyMem_objSetKey_self acc.1 (portKey p))
    · exact ih hnd2 (portStep acc r) p hmem

/-- Arguments of a confirmed create_container request whose two port pairs
share the container port 80 with different host ports. -/
def dupPortsArgs : Args :=
  { name := some "web"
    image := some "nginx"
    confirm := some true
    ports := some [{ host := 1, container := 80 }, { host := 2, container := 80 }] }

/-- C5 counterexample: with two port pairs sharing container port 80, the
second JS object assignment overwrites the first, so the creation payload
does not hold a binding mapping 80/tcp to host port 1 for the first pair —
it holds only the binding of the last pair. -/
theorem createDupPorts_overwritten :
    (buildCreateConfig dupPortsArgs).PortBindings = [("80/tcp", ["2"])]
    ∧ objLookup (buildCreateConfig dupPortsArgs).PortBindings "80/tcp" = some ["2"] := by
  refine ⟨?_, ?_⟩ <;> rfl

/-- C5 amended, on an invocation whose port pairs have pairwise-distinct
container ports and whose two remote calls succeed: the payload declares
an exposed-port entry and a host binding for each pair, volume pairs render
as host:container bind strings, the restart policy defaults to
unless-stopped when absent, exactly the create call then the start call
addressed to the returned id are issued, and the success message contains
the first 12 characters of the created id. -/
theorem createContainer_payload (token cid : String) (args : Args)
    (oracle : ApiCall → ApiOutcome) (d : RemoteData) (htok : token ≠ "")
    (hconfirm : confirmGiven args.confirm = true)
    (hnd : ((args.ports.getD []).map portKey).Nodup)
    (hcreate : oracle (createCallOf args) = .ok (.created cid))
    (hstart : oracle (startCallOf cid) = .ok d) :
    handleCallTool (some token) oracle
        { name := "portainer_create_container", arguments := args } =
      (.ok (textResult ("✅ Container \x27" ++ optStr args.name ++
        "\x27 created and started successfully!\nID: " ++ jsSubstring cid 0 12)),
       [createCallOf args, startCallOf cid])
    ∧ (∀ p ∈ args.ports.getD [],
        keyMem (buildCreateConfig args).ExposedPorts (toString p.container ++ "/tcp") = true
        ∧ objLookup (buildCreateConfig args).PortBindings (toString p.container ++ "/tcp") =
            some [toString p.host])
    ∧ (buildCreateConfig args).Binds =
        (args.volumes.getD []).map (fun v => v.host ++ ":" ++ v.container)
    ∧ (args.restart_policy = none →
        (buildCreateConfig args).restartPolicyName = "unless-stopped")
    ∧ (createCallOf args).body = some (.containerCreate (buildCreateConfig args))
    ∧ (startCallOf cid).path =
        "/api/endpoints/" ++ endpointId ++ "/docker/containers/" ++ cid ++ "/start"
    ∧ strIncludes ("✅ Container \x27" ++ optStr args.name ++
        "\x27 created and started successfully!\nID: " ++ jsSubstring cid 0 12)
        (jsSubstring cid 0 12) = true := by
  refine ⟨?_, ?_, rfl, ?_, rfl, rfl, strIncludes_append_right _ _⟩
  · rw [handleCallTool_present token oracle _ htok, dispatch_create, hconfirm]
    simp only [Bool.not_true, Bool.false_eq_true, if_false]
    simp [createContainer, callApi, hcreate, hstart]
  · intro p hp
    have h := portFold_correct (args.ports.getD []) hnd ([], []) p hp
    exact ⟨h.2, h.1⟩
  · intro hr
    simp [buildCreateConfig, jsOrOptStr, hr]

/-- A remote that answers the create call with a created id and every
other call with a generic success. -/
def createOkOracle : ApiCall → ApiOutcome := fun c =>
  if c.path = createPath then .ok (.created "feedfacecafebeef1234") else .ok .empty

/-- Witness for the amended C5 at a concrete confirmed invocation. -/
theorem createContainer_payload_witness :
    handleCallTool (some "tok") createOkOracle
        { name := "portainer_create_container", arguments := fullArgs } =
      (.ok (textResult ("✅ Container \x27" ++ optStr fullArgs.name ++
        "\x27 created and started successfully!\nID: " ++
        jsSubstring "feedfacecafebeef1234" 0 12)),
       [createCallOf fullArgs, startCallOf "feedfacecafebeef1234"]) :=
  (createContainer_payload "tok" "feedfacecafebeef1234" fullArgs createOkOracle
    .empty (by decide) rfl (by decide) rfl rfl).1

/-! Specification-side rendering of the container list, phrased from the
words of the spec (first 12 characters, leading slash stripped, host:port
or bare port when unpublished, entries joined by comma-space) to be
compared with the rendering computed by the code. -/

def specShortId (s : String) : String := ⟨s.data.take 12⟩

def stripLeadingSlash (s : String) : String :=
  if s.data.head? = some '/' then ⟨s.data.tail⟩ else s

def specPortText (p : RemotePort) : String :=
  match p.PublicPort with
  | some pub => toString pub ++ ":" ++ toString p.PrivatePort
  | none => toString p.PrivatePort

def specContainerLine (c : RemoteContainer) : String :=
  "📦 " ++ stripLeadingSlash (c.Names.headD "") ++ " (" ++ specShortId c.Id ++
    ")\n   Image: " ++ c.Image ++ "\n   Status: " ++ c.Status ++ "\n   Ports: " ++
    jsOrStr (String.intercalate ", " ((c.Ports.getD []).map specPortText)) "none" ++ "\n"

/-- A remote container as the Docker API shapes it: a Ports array is
present with no zero PublicPort, and the first name starts with a slash. -/
def WellFormedContainer (c : RemoteContainer) : Prop :=
  (∃ ps, c.Ports = some ps ∧ ∀ p ∈ ps, p.PublicPort ≠ some 0)
  ∧ (∃ nm rest, c.Names = nm :: rest ∧ nm.data.head? = some '/')

theorem jsReplaceFirst_slash (nm : String) (h : nm.data.head? = some '/') :
    jsReplaceFirst nm "/" "" = stripLeadingSlash nm := by
  obtain ⟨t, ht⟩ : ∃ t, nm.data = '/' :: t := by
    cases hd : nm.data with
    | nil => rw [hd] at h; simp at h
    | cons a t =>
      rw [hd] at h
      simp only [List.head?] at h
      exact ⟨t, by rw [Option.some_inj.mp h]⟩
  rw [jsReplaceFirst, stripLeadingSlash, h, if_pos rfl, ht]
  simp [jsReplaceFirstL, startsWithL]

theorem portDisplay_eq (p : RemotePort) (h : p.PublicPort ≠ some 0) :
    portDisplay p = specPortText p := by
  cases hv : p.PublicPort with
  | none => simp [portDisplay, specPortText, jsTruthyOptNat, hv]
  | some n =>
    have hn : n ≠ 0 := fun h0 => h (by rw [hv, h0])
    simp [portDisplay, specPortText, jsTruthyOptNat, hv, hn]

theorem containerView_wf (c : RemoteContainer) (hw : WellFormedContainer c) :
    ∃ v, containerView c = .ok v ∧ containerLine v = specContainerLine c := by
  obtain ⟨⟨ps, hps, hpub⟩, nm, rest, hnm, hslash⟩ := hw
  refine ⟨{ id := jsSubstring c.Id 0 12
            name := jsReplaceFirst nm "/" ""
            image := c.Image
            status := c.Status
            state := c.State
            ports := String.intercalate ", " (ps.map portDisplay) }, ?_, ?_⟩
  · simp only [containerView, hnm, hps]
    rfl
  · rw [containerLine, specContainerLine]
    have h1 : c.Names.headD "" = nm := by rw [hnm]; rfl
    have h2 : ps.map portDisplay = (c.Ports.getD []).map specPortText := by
      rw [hps]
      exact List.map_congr_left (fun p hp => portDisplay_eq p (hpub p hp))
    have h3 : jsSubstring c.Id 0 12 = specShortId c.Id := by
      simp [jsSubstring, specShortId]
    rw [h1, jsReplaceFirst_slash nm hslash, h2, h3]

theorem mapViews_wf (cs : List RemoteContainer)
    (h : ∀ c ∈ cs, WellFormedContainer c) :
    ∃ vs, mapViews cs = .ok vs ∧ vs.length = cs.length ∧
      vs.map containerLine = cs.map specContainerLine := by
  induction cs with
  | nil => exact ⟨[], rfl, rfl, rfl⟩
  | cons c t ih =>
    obtain ⟨v, hv, hline⟩ := containerView_wf c (h c (List.mem_cons_self c t))
    obtain ⟨vs, hvs, hlen, hlines⟩ :=
      ih (fun x hx => h x (List.mem_cons_of_mem c hx))
    refine ⟨v :: vs, ?_, by simp [hlen], by simp [hline, hlines]⟩
    simp only [mapViews, hv, hvs]
    rfl

/-- C8: on a well-formed remote container list, the rendered text equals
the specification-side rendering — leading count, then per container the
first 12 id characters, the first name with the leading slash stripped,
image, status text, and the comma-space port summary (host:container, or
the bare container port when unpublished) — and exactly the one list call
is issued; an empty remote result renders text containing the phrase
Found 0 containers and no item lines. -/
theorem listContainers_projection (token : String) (args : Args)
    (cs : List RemoteContainer) (htok : token ≠ "")
    (h : ∀ c ∈ cs, WellFormedContainer c) :
    handleCallTool (some token) (fun _ => .ok (.containers cs))
        { name := "portainer_list_containers", arguments := args } =
      (.ok (textResult ("Found " ++ toString cs.length ++ " containers:\n\n" ++
        String.intercalate "\n" (cs.map specContainerLine))),
       [containersCallOf args.all])
    ∧ (cs = [] →
        ("Found " ++ toString cs.length ++ " containers:\n\n" ++
            String.intercalate "\n" (cs.map specContainerLine)) =
          "Found 0 containers:\n\n"
        ∧ strIncludes ("Found " ++ toString cs.length ++ " containers:\n\n" ++
            String.intercalate "\n" (cs.map specContainerLine))
            "Found 0 containers" = true) := by
  constructor
  · obtain ⟨vs, hvs, hlen, hlines⟩ := mapViews_wf cs h
    rw [handleCallTool_present token _ _ htok, dispatch_listContainers]
    simp [listContainers, callApi, hvs, hlen, hlines]
  · intro h0
    subst h0
    exact ⟨rfl, by decide⟩

/-- A representative well-formed remote container. -/
def sampleContainer : RemoteContainer :=
  { Id := "0123456789abcdef"
    Names := ["/web"]
    Image := "nginx"
    Status := "Up 3 days"
    State := "running"
    Ports := some [{ PublicPort := some 8080, PrivatePort := 80 }] }

/-- Witness for C8: a singleton well-formed list renders through the
spec-side projection, and the empty list renders the Found 0 containers
text. -/
theorem listContainers_projection_witness :
    (handleCallTool (some "tok") (fun _ => .ok (.containers [sampleContainer]))
        { name := "portainer_list_containers", arguments := {} } =
      (.ok (textResult ("Found " ++ toString [sampleContainer].length ++
        " containers:\n\n" ++
        String.intercalate "\n" ([sampleContainer].map specContainerLine))),
       [containersCallOf none]))
    ∧ (("Found " ++ toString ([] : List RemoteContainer).length ++
          " containers:\n\n" ++
          String.intercalate "\n" (([] : List RemoteContainer).map specContainerLine)) =
        "Found 0 containers:\n\n") := by
  constructor
  · exact (listContainers_projection "tok" {} [sampleContainer] (by decide)
      (by
        intro c hc
        rw [List.mem_singleton.mp hc]
        exact ⟨⟨[{ PublicPort := some 8080, PrivatePort := 80 }], rfl,
          by decide⟩, "/web", [], rfl, rfl⟩)).1
  · exact ((listContainers_projection "tok" {} [] (by decide)
      (by intro c hc; cases hc)).2 rfl).1

/-- A remote container whose Ports field is absent. -/
def noPortsContainer : RemoteContainer :=
  { Id := "0123456789abcdef"
    Names := ["/web"]
    Image := "nginx"
    Status := "Up"
    State := "running"
    Ports := none }

/-- C9 counterexample: a remote container without a Ports field makes
list_containers fail with a TypeError (mapping over undefined) instead of
substituting a placeholder, so absent optional remote fields are not
tolerated by the list renderer. -/
theorem absentPortsField_fails :
    (handleCallTool (some "tok") (fun _ => .ok (.containers [noPortsContainer]))
        { name := "portainer_list_containers", arguments := {} }).1 =
      .error (.jsType
        "TypeError: Cannot read properties of undefined (reading \x27map\x27)") := rfl

def emptyPortsContainer : RemoteContainer :=
  { Id := "0123456789abcdef"
    Names := ["/web"]
    Image := "nginx"
    Status := "Up 3 days"
    State := "running"
    Ports := some [] }

def emptyMountsDetail : RemoteContainerDetail :=
  { Id := "0123456789abcdef"
    Name := "/web"
    stateStatus := "running"
    stateStartedAt := "2025-01-01T00:00:00Z"
    configImage := "nginx"
    configEnv := some ["A=1"]
    restartPolicyName := "always"
    Mounts := some []
    networkNames := ["bridge"] }

/-- C9 amended: the list renderers tolerate empty result sets (Found 0 with
no item lines) and an absent Volumes field in the volume listing, and they
substitute placeholders for an empty port list (none) and an empty mount
list (two-space none); but an absent Ports field (and likewise absent
Mounts or Env) fails the invocation instead of rendering a placeholder. -/
theorem listRender_tolerance :
    (handleCallTool (some "tok") (fun _ => .ok (.volumes none))
        { name := "portainer_list_volumes", arguments := {} }).1 =
      .ok (textResult "Found 0 volumes:\n\n")
    ∧ (handleCallTool (some "tok") (fun _ => .ok (.containers []))
        { name := "portainer_list_containers", arguments := {} }).1 =
      .ok (textResult "Found 0 containers:\n\n")
    ∧ (handleCallTool (some "tok") (fun _ => .ok (.images []))
        { name := "portainer_list_images", arguments := {} }).1 =
      .ok (textResult "Found 0 images:\n\n")
    ∧ (handleCallTool (some "tok") (fun _ => .ok (.networks []))
        { name := "portainer_list_networks", arguments := {} }).1 =
      .ok (textResult "Found 0 networks:\n\n")
    ∧ (handleCallTool (some "tok") (fun _ => .ok (.containers [emptyPortsContainer]))
        { name := "portainer_list_containers", arguments := {} }).1 =
      .ok (textResult
        "Found 1 containers:\n\n📦 web (0123456789ab)\n   Image: nginx\n   Status: Up 3 days\n   Ports: none\n")
    ∧ (handleCallTool (some "tok") (fun _ => .ok (.containerDetail emptyMountsDetail))
        { name := "portainer_container_info", arguments := { container_id := some "c1" } }).1 =
      .ok (textResult
        "Container: web (0123456789ab)\nState: running\nStarted: 2025-01-01T00:00:00Z\nImage: nginx\nRestart Policy: always\nEnvironment:\n  - A=1\nMounts:\n  none\nNetworks: bridge") := by
  exact ⟨rfl, rfl, rfl, rfl, rfl, rfl⟩

/-- C10: the image listing displays the 12 id characters starting at index
7 (skipping the sha256: prefix), while the container and network listings
display the first 12 characters starting at index 0. -/
theorem idDisplay_offsets (rest full : String) (c : RemoteContainer) :
    (imageView { Id := "sha256:" ++ rest, RepoTags := none, Size := 0, Created := 0 }).id =
      ⟨rest.data.take 12⟩
    ∧ jsSubstring ("sha256:" ++ rest) 7 19 = ⟨rest.data.take 12⟩
    ∧ (networkView { Id := full, Name := "", Driver := "", Scope := "" }).id =
      ⟨full.data.take 12⟩
    ∧ (∀ v, containerView c = .ok v → v.id = ⟨c.Id.data.take 12⟩) := by
  have key : jsSubstring ("sha256:" ++ rest) 7 19 = ⟨rest.data.take 12⟩ := by
    rw [jsSubstring, strAppend_data,
      List.drop_left' (show ("sha256:" : String).data.length = 7 from rfl)]
  refine ⟨key, key, rfl, ?_⟩
  intro v hv
  cases hn : c.Names.head? with
  | none =>
    simp only [containerView, hn] at hv
    exact Except.noConfusion hv
  | some nm =>
    cases hp : c.Ports with
    | none =>
      simp only [containerView, hn, hp] at hv
      exact Except.noConfusion hv
    | some ps =>
      simp only [containerView, hn, hp] at hv
      have hv2 : Except.ok
          { id := jsSubstring c.Id 0 12
            name := jsReplaceFirst nm "/" ""
            image := c.Image
            status := c.Status
            state := c.State
            ports := String.intercalate ", " (ps.map portDisplay) } =
          (Except.ok v : Except HandlerError ContainerView) := hv
      injection hv2 with hveq
      rw [← hveq]
      rfl

/-- Witness for C10 at concrete images, networks and containers. -/
theorem idDisplay_offsets_witness :
    (imageView ⟨"sha256:" ++ "00112233445566778899", none, 0, 0⟩).id =
      ⟨("00112233445566778899" : String).data.take 12⟩
    ∧ (networkView ⟨"abcdefabcdefabcdef", "", "", ""⟩).id =
      ⟨("abcdefabcdefabcdef" : String).data.take 12⟩
    ∧ ((containerView sampleContainer).map ContainerView.id =
        .ok ⟨(sampleContainer.Id.data.take 12)⟩) := by
  obtain ⟨h1, _, h3, h4⟩ :=
    idDisplay_offsets "00112233445566778899" "abcdefabcdefabcdef" sampleContainer
  refine ⟨h1, h3, ?_⟩
  rw [show containerView sampleContainer = Except.ok
    { id := jsSubstring sampleContainer.Id 0 12
      name := jsReplaceFirst "/web" "/" ""
      image := "nginx"
      status := "Up 3 days"
      state := "running"
      ports := String.intercalate ", "
        ([({ PublicPort := some 8080, PrivatePort := 80 } : RemotePort)].map portDisplay) }
    from rfl]
  rw [Except.map, h4 _ rfl]

end PortainerBridge
